import Mathlib

/-!
Shallow embedding of the chat-app backend (Miri-Shtul/chat-app):
the friend-request flow and auth middleware of backend/routes/users.js,
the message send/query flow of backend/routes/messages.js, and the
socket.io broadcast relay of backend/index.js. The document store is
modelled as in-memory lists in insertion order; `findById` / `find` /
`save` become list lookup, filter and in-place replacement.
-/

namespace ChatApp

/-- Status of a FriendRequest: enum [pending, accepted, declined]. -/
inductive ReqStatus
  | pending
  | accepted
  | declined
deriving Repr, DecidableEq

/-- A User document: id, username, profilePicture, friends (list of user ids).
Matches the UserProfile schema in backend/routes/users.js. -/
structure UserRec where
  uid : Nat
  username : String
  profilePicture : Option String
  friends : List Nat
deriving Repr, DecidableEq

/-- A FriendRequest document: requester, recipient, status. -/
structure FriendRequestRec where
  rid : Nat
  requester : Nat
  recipient : Nat
  status : ReqStatus
deriving Repr, DecidableEq

/-- A Message document: sender, receiver, content, media, timestamp.
Matches the Message schema in backend/routes/messages.js. -/
structure MessageRec where
  sender : Nat
  receiver : Nat
  content : Option String
  media : Option String
  timestamp : Nat
deriving Repr, DecidableEq

/-- The document store (MongoDB collections), each in insertion order. -/
structure Store where
  users : List UserRec
  requests : List FriendRequestRec
  messages : List MessageRec
deriving Repr, DecidableEq

/-- User.findById -/
def findUser (s : Store) (uid : Nat) : Option UserRec :=
  s.users.find? (fun u => u.uid == uid)

/-- FriendRequest.findById -/
def findRequest (s : Store) (rid : Nat) : Option FriendRequestRec :=
  s.requests.find? (fun r => r.rid == rid)

/-- user.save(): write the (possibly mutated) document back by id. -/
def saveUser (s : Store) (u : UserRec) : Store :=
  { s with users := s.users.map (fun v => if v.uid == u.uid then u else v) }

/-- request.save(): write the (possibly mutated) document back by id. -/
def saveRequest (s : Store) (r : FriendRequestRec) : Store :=
  { s with requests := s.requests.map (fun q => if q.rid == r.rid then r else q) }

/-- Errors observable from the handlers. `nullDeref` embeds the JS
TypeError raised when a property is set or read on a `null` result of
`findById` (an unhandled rejection, surfaced as a generic server error,
not a structured NotFound response). -/
inductive AcceptError
  | nullDeref
deriving Repr, DecidableEq

/-- POST /users/friend-request/:id/accept (backend/routes/users.js lines
204-219). Loads the request (no null check: a missing id is a null
dereference), sets status to accepted, saves it, loads both users,
pushes each id onto the other's friends array unconditionally, and
saves both. The authenticated user `actingUserId` is in scope via
req.user.id but the handler never consults it. -/
def acceptFriendRequest (s : Store) (reqId : Nat) (actingUserId : Nat) :
    Store × Except AcceptError String :=
  match findRequest s reqId with
  | none => (s, Except.error AcceptError.nullDeref)
  | some request =>
    let request' := { request with status := ReqStatus.accepted }
    let s1 := saveRequest s request'
    match findUser s1 request'.requester, findUser s1 request'.recipient with
    | some requester, some recipient =>
      let requester' := { requester with friends := requester.friends ++ [recipient.uid] }
      let recipient' := { recipient with friends := recipient.friends ++ [requester.uid] }
      let s2 := saveUser s1 requester'
      let s3 := saveUser s2 recipient'
      (s3, Except.ok "Friend request accepted")
    | _, _ => (s1, Except.error AcceptError.nullDeref)

/-- POST /users/friend-request (backend/routes/users.js lines 147-152):
creates a pending FriendRequest from the authenticated user to
recipientId; `newId` is the id the store assigns the new document. -/
def sendFriendRequest (s : Store) (requesterId recipientId newId : Nat) :
    Store × Nat × String :=
  ({ s with requests :=
      s.requests ++ [{ rid := newId, requester := requesterId,
                       recipient := recipientId, status := ReqStatus.pending }] },
   201, "Friend request sent")

/-- POST /users/profile-picture (backend/routes/users.js lines 114-119):
overwrites the authenticated user's profilePicture with the uploaded
file's path. -/
def updateProfilePicture (s : Store) (uid : Nat) (path : String) :
    Store × Except AcceptError String :=
  match findUser s uid with
  | none => (s, Except.error AcceptError.nullDeref)
  | some u =>
    (saveUser s { u with profilePicture := some path }, Except.ok "ok")

/-- Failure mode of sendMessage. -/
inductive SendError
  | validationError
deriving Repr, DecidableEq

/-- Modelled from the spec: the Message model file
(backend/models/Message.js) is not under src/, so its schema-level
validation is taken from the spec's data model, which makes text
content nullable only if a media reference is present: persisting a
message fails validation exactly when both content and media are
absent. -/
def messageValid (content media : Option String) : Bool :=
  content.isSome || media.isSome

/-- POST /messages (backend/routes/messages.js lines 318-328): builds a
Message with sender taken from the verified token (req.user.id),
receiver and content from the request body, media from the uploaded
file if any (else null), and saves it. Validation is the modelled
schema validation of `messageValid`; on failure nothing is persisted. -/
def sendMessage (s : Store) (tokenUserId receiver : Nat)
    (content mediaFile : Option String) (now : Nat) :
    Store × Except SendError String :=
  let media := mediaFile
  if messageValid content media then
    ({ s with messages :=
        s.messages ++ [{ sender := tokenUserId, receiver := receiver,
                         content := content, media := media, timestamp := now }] },
     Except.ok "Message sent")
  else
    (s, Except.error SendError.validationError)

/-- The boolean $or filter of GET /messages/:receiverId
(backend/routes/messages.js lines 360-364). -/
def conversationFilter (userA userB : Nat) (m : MessageRec) : Bool :=
  (m.sender == userA && m.receiver == userB) ||
  (m.sender == userB && m.receiver == userA)

/-- The public profile fields selected by populate:
username profilePicture. -/
structure PublicProfile where
  username : String
  profilePicture : Option String
deriving Repr, DecidableEq

/-- Look up a user's public profile (what populate substitutes). -/
def publicProfile (s : Store) (uid : Nat) : Option PublicProfile :=
  (findUser s uid).map (fun u => { username := u.username, profilePicture := u.profilePicture })

/-- A message as returned by the conversation query: the stored fields
with sender and receiver enriched by populate. -/
structure EnrichedMessage where
  senderProfile : Option PublicProfile
  receiverProfile : Option PublicProfile
  senderId : Nat
  receiverId : Nat
  content : Option String
  media : Option String
  timestamp : Nat
deriving Repr, DecidableEq

/-- populate('sender receiver', 'username profilePicture') applied to
one stored message. -/
def enrichMessage (s : Store) (m : MessageRec) : EnrichedMessage :=
  { senderProfile := publicProfile s m.sender
    receiverProfile := publicProfile s m.receiver
    senderId := m.sender
    receiverId := m.receiver
    content := m.content
    media := m.media
    timestamp := m.timestamp }

/-- GET /messages/:receiverId (backend/routes/messages.js lines
359-367): Message.find with the $or filter, in the store's natural
(insertion) order, then populate on sender and receiver. -/
def getConversation (s : Store) (tokenUserId receiverId : Nat) : List EnrichedMessage :=
  (s.messages.filter (conversationFilter tokenUserId receiverId)).map (enrichMessage s)

/-- The payload of the socket.io sendMessage / receiveMessage events:
the client-supplied sender, receiver, content, media fields. -/
structure RelayEvent where
  sender : Nat
  receiver : Nat
  content : Option String
  media : Option String
deriving Repr, DecidableEq

/-- A connected socket: its id and the receiveMessage events it has
observed, in order. -/
structure Listener where
  lid : Nat
  inbox : List RelayEvent
deriving Repr, DecidableEq

/-- The broadcast relay of backend/index.js: the set of currently
connected sockets (io's registry), kept in connection order. -/
structure Relay where
  listeners : List Listener
deriving Repr, DecidableEq

/-- io.on('connection'): a new socket joins with nothing received yet. -/
def relayConnect (r : Relay) (id : Nat) : Relay :=
  { listeners := r.listeners ++ [{ lid := id, inbox := [] }] }

/-- socket.on('disconnect'): the socket leaves the registry. -/
def relayDisconnect (r : Relay) (id : Nat) : Relay :=
  { listeners := r.listeners.filter (fun l => l.lid != id) }

/-- socket.on('sendMessage') handler (backend/index.js lines 33-35):
io.emit('receiveMessage', ...) delivers the event, fields unchanged, to
every currently connected socket — the payload's receiver field is
never consulted and no token is checked. -/
def relayPublish (r : Relay) (e : RelayEvent) : Relay :=
  { listeners := r.listeners.map (fun l => { l with inbox := l.inbox ++ [e] }) }

/-- Outcome of jwt.verify on a presented token. -/
inductive TokenCheck
  | valid (userId : Nat)
  | invalid
deriving Repr, DecidableEq

/-- authenticateToken middleware (backend/routes/users.js lines
221-229) wrapped around a handler: no Authorization header responds
401 "Access denied"; a token jwt.verify rejects responds 403
"Invalid token"; only a valid token reaches the handler, with
req.user.id bound to the verified user id. The result is the final
store and the HTTP status and body. -/
def guarded (s : Store) (token : Option String) (verify : String → TokenCheck)
    (handler : Nat → Store → Store × Nat × String) : Store × Nat × String :=
  match token with
  | none => (s, 401, "Access denied")
  | some t =>
    match verify t with
    | TokenCheck.invalid => (s, 403, "Invalid token")
    | TokenCheck.valid uid => handler uid s

/-- The POST /messages handler body as a guardable handler: 201 on
success; a failed save is an unhandled rejection surfaced as a generic
server error. -/
def sendMessageHandler (receiver : Nat) (content mediaFile : Option String) (now : Nat)
    (uid : Nat) (s : Store) : Store × Nat × String :=
  match sendMessage s uid receiver content mediaFile now with
  | (s', Except.ok msg) => (s', 201, msg)
  | (s', Except.error _) => (s', 500, "Some server error")

/-- A sample store: two users with no friends yet and one pending
friend request from user 1 to user 2. -/
def sampleStore : Store :=
  { users := [{ uid := 1, username := "alice", profilePicture := none, friends := [] },
              { uid := 2, username := "bob", profilePicture := some "uploads/b.png", friends := [] }]
    requests := [{ rid := 10, requester := 1, recipient := 2, status := ReqStatus.pending }]
    messages := [{ sender := 1, receiver := 2, content := some "hi", media := none, timestamp := 5 },
                 { sender := 3, receiver := 1, content := some "yo", media := none, timestamp := 6 },
                 { sender := 2, receiver := 1, content := none, media := some "uploads/x.png", timestamp := 7 }] }

/-- A sample relay with three connected sockets. -/
def sampleRelay : Relay :=
  { listeners := [{ lid := 7, inbox := [] }, { lid := 8, inbox := [] }, { lid := 9, inbox := [] }] }

/-- A sample relay event. -/
def sampleEvent : RelayEvent :=
  { sender := 1, receiver := 2, content := some "hi", media := none }

/-- Writing a user back never touches the messages collection. -/
theorem saveUser_messages (s : Store) (u : UserRec) : (saveUser s u).messages = s.messages :=
  rfl

/-- Writing a request back never touches the messages collection. -/
theorem saveRequest_messages (s : Store) (r : FriendRequestRec) :
    (saveRequest s r).messages = s.messages :=
  rfl

/-- Claim C1 (code_bug evidence): accepting the same friend request
twice is not a no-op — the handler pushes unconditionally, so after a
second accept of request 10 each user appears twice in the other's
friends array, violating the contain-each-other-exactly-once
invariant. -/
theorem accept_twice_duplicates :
    (findUser (acceptFriendRequest (acceptFriendRequest sampleStore 10 2).1 10 2).1 1).map
        UserRec.friends = some [2, 2]
    ∧ (findUser (acceptFriendRequest (acceptFriendRequest sampleStore 10 2).1 10 2).1 2).map
        UserRec.friends = some [1, 1]
    ∧ ((findUser (acceptFriendRequest (acceptFriendRequest sampleStore 10 2).1 10 2).1 1).map
        (fun u => u.friends.count 2)) ≠ some 1 := by
  refine ⟨rfl, rfl, by decide⟩

/-- Claim C4 (code_bug evidence): accepting a request id that does not
exist is a null dereference (request.status set on null), an unhandled
TypeError — not a structured NotFoundError response; no state is
modified. -/
theorem accept_missing_null_deref :
    acceptFriendRequest sampleStore 99 2 = (sampleStore, Except.error AcceptError.nullDeref) :=
  rfl

/-- Claim C5 (code_bug evidence): the handler never consults the acting
user: an accept of request 10 (recipient 2) issued by unrelated user 7
succeeds and updates both friend sets, identically to an accept by the
recipient. -/
theorem accept_ignores_acting_user :
    (acceptFriendRequest sampleStore 10 7).2 = Except.ok "Friend request accepted"
    ∧ (findUser (acceptFriendRequest sampleStore 10 7).1 1).map UserRec.friends = some [2]
    ∧ (findUser (acceptFriendRequest sampleStore 10 7).1 2).map UserRec.friends = some [1]
    ∧ acceptFriendRequest sampleStore 10 7 = acceptFriendRequest sampleStore 10 2 := by
  refine ⟨rfl, rfl, rfl, rfl⟩

/-- Claim C3: a message with neither text content nor a media file
fails validation with ValidationError and nothing is persisted (the
store comes back unchanged). -/
theorem sendMessage_rejects_empty (s : Store) (tokenUserId receiver now : Nat) :
    sendMessage s tokenUserId receiver none none now
      = (s, Except.error SendError.validationError) := by
  simp [sendMessage, messageValid]

/-- Claim C7: the conversation query is symmetric in its two user
arguments: same messages, same relative order, same enrichment. -/
theorem getConversation_symm (s : Store) (a b : Nat) :
    getConversation s a b = getConversation s b a := by
  unfold getConversation
  congr 1
  apply List.filter_congr
  intro m _
  simp [conversationFilter, Bool.or_comm]

/-- Claim C2: when the stored messages carry non-decreasing timestamps
in insertion order (the server assigns them at persistence time), the
conversation query returns exactly the messages whose (sender,
receiver) pair is (a, b) or (b, a), in timestamp-ascending order, each
enriched with the sender's and receiver's username and profile
picture. -/
theorem getConversation_correct (s : Store) (a b : Nat)
    (hmono : s.messages.Pairwise (fun m1 m2 => m1.timestamp ≤ m2.timestamp)) :
    ((getConversation s a b).Pairwise (fun e1 e2 => e1.timestamp ≤ e2.timestamp))
    ∧ (∀ e, e ∈ getConversation s a b ↔
        ∃ m ∈ s.messages,
          ((m.sender = a ∧ m.receiver = b) ∨ (m.sender = b ∧ m.receiver = a))
          ∧ e = enrichMessage s m)
    ∧ (∀ e ∈ getConversation s a b,
        e.senderProfile = publicProfile s e.senderId
        ∧ e.receiverProfile = publicProfile s e.receiverId) := by
  refine ⟨?_, ?_, ?_⟩
  · unfold getConversation
    rw [List.pairwise_map]
    exact hmono.filter _
  · intro e
    unfold getConversation
    simp only [List.mem_map, List.mem_filter]
    constructor
    · rintro ⟨m, ⟨hm, hflt⟩, rfl⟩
      refine ⟨m, hm, ?_, rfl⟩
      simpa [conversationFilter] using hflt
    · rintro ⟨m, hm, hor, rfl⟩
      refine ⟨m, ⟨hm, ?_⟩, rfl⟩
      simpa [conversationFilter] using hor
  · intro e he
    unfold getConversation at he
    rcases List.mem_map.mp he with ⟨m, _, rfl⟩
    exact ⟨rfl, rfl⟩

/-- Witness for getConversation_correct at the sample store. -/
theorem getConversation_correct_witness :
    sampleStore.messages.Pairwise (fun m1 m2 => m1.timestamp ≤ m2.timestamp)
    ∧ (getConversation sampleStore 1 2).Pairwise (fun e1 e2 => e1.timestamp ≤ e2.timestamp) :=
  ⟨by decide, (getConversation_correct sampleStore 1 2 (by decide)).1⟩

/-- Claim C6: a publish delivers the event to every listener registered
at the time of the publish (the publisher's own socket is one of them),
with no inspection of the event's receiver field (the statement holds
for every event); a listener connecting afterwards starts with an empty
inbox and so never holds that event. -/
theorem relay_publish_spec (r : Relay) (e : RelayEvent) (newId : Nat) :
    (relayPublish r e).listeners.length = r.listeners.length
    ∧ (∀ l ∈ (relayPublish r e).listeners, e ∈ l.inbox)
    ∧ (∀ l ∈ r.listeners,
        ({ lid := l.lid, inbox := l.inbox ++ [e] } : Listener) ∈ (relayPublish r e).listeners)
    ∧ (∀ l ∈ (relayConnect (relayPublish r e) newId).listeners,
        l ∈ (relayPublish r e).listeners ∨ (l.lid = newId ∧ e ∉ l.inbox)) := by
  refine ⟨by simp [relayPublish], ?_, ?_, ?_⟩
  · intro l hl
    rcases List.mem_map.mp hl with ⟨l0, _, rfl⟩
    simp
  · intro l hl
    exact List.mem_map.mpr ⟨l, hl, rfl⟩
  · intro l hl
    rcases List.mem_append.mp hl with h | h
    · exact Or.inl h
    · simp only [List.mem_singleton] at h
      subst h
      simp

/-- Witness for relay_publish_spec: after publishing on the sample
relay, socket 7 holds the event. -/
theorem relay_publish_spec_witness :
    sampleEvent ∈ (Listener.mk 7 [sampleEvent]).inbox :=
  (relay_publish_spec sampleRelay sampleEvent 4).2.1 ⟨7, [sampleEvent]⟩ (by decide)

/-- A verifier that rejects every token (an invalid or expired JWT). -/
def alwaysInvalid : String → TokenCheck := fun _ => TokenCheck.invalid

/-- A verifier that accepts every token as the given user. -/
def validAs (uid : Nat) : String → TokenCheck := fun _ => TokenCheck.valid uid

/-- Claim C8 (counterexample): a request with an invalid token to the
protected send-message endpoint is answered with status 403
"Invalid token", not status 401 as the claim states. -/
theorem invalid_token_not_401 :
    (guarded sampleStore (some "expired") alwaysInvalid
        (sendMessageHandler 2 (some "hi") none 9)).2 = (403, "Invalid token")
    ∧ (guarded sampleStore (some "expired") alwaysInvalid
        (sendMessageHandler 2 (some "hi") none 9)).2.1 ≠ 401 := by
  exact ⟨rfl, by decide⟩

/-- Claim C8 (amended): for every protected operation, a request with
no Authorization token is answered 401 "Access denied" and a request
whose token fails verification is answered 403 "Invalid token"; in
both cases the middleware returns before the handler runs, so the
store is untouched. -/
theorem auth_short_circuit (s : Store) (verify : String → TokenCheck)
    (handler : Nat → Store → Store × Nat × String) (t : String)
    (hbad : verify t = TokenCheck.invalid) :
    guarded s none verify handler = (s, 401, "Access denied")
    ∧ guarded s (some t) verify handler = (s, 403, "Invalid token") := by
  constructor
  · rfl
  · have e : guarded s (some t) verify handler
        = match verify t with
          | TokenCheck.invalid => (s, 403, "Invalid token")
          | TokenCheck.valid uid => handler uid s := rfl
    rw [e, hbad]

/-- Witness for auth_short_circuit with a rejecting verifier guarding
the send-message handler. -/
theorem auth_short_circuit_witness :
    alwaysInvalid "tok" = TokenCheck.invalid
    ∧ guarded sampleStore (some "tok") alwaysInvalid (sendMessageHandler 2 (some "hi") none 9)
        = (sampleStore, 403, "Invalid token") :=
  ⟨rfl, (auth_short_circuit sampleStore alwaysInvalid
      (sendMessageHandler 2 (some "hi") none 9) "tok" rfl).2⟩

/-- Claim C9: messages are append-only. sendMessage either leaves the
messages collection unchanged (validation failure) or appends exactly
the one new message at the end; accepting a friend request, sending a
friend request and updating a profile picture never touch the messages
collection, and no operation edits or deletes a stored message. -/
theorem messages_append_only (s : Store) (uid recv : Nat) (c m : Option String)
    (now rid a q p nid : Nat) (path : String) :
    ((sendMessage s uid recv c m now).1.messages = s.messages
      ∨ (sendMessage s uid recv c m now).1.messages
          = s.messages ++ [{ sender := uid, receiver := recv, content := c,
                             media := m, timestamp := now }])
    ∧ (acceptFriendRequest s rid a).1.messages = s.messages
    ∧ (sendFriendRequest s q p nid).1.messages = s.messages
    ∧ (updateProfilePicture s a path).1.messages = s.messages := by
  refine ⟨?_, ?_, rfl, ?_⟩
  · unfold sendMessage
    by_cases h : messageValid c m
    · rw [if_pos h]
      exact Or.inr rfl
    · rw [if_neg h]
      exact Or.inl rfl
  · unfold acceptFriendRequest
    split
    · rfl
    · simp only
      split <;> rfl
  · unfold updateProfilePicture
    split <;> rfl

/-- Claim C10: the relay hands every listener exactly the
client-supplied sender, receiver, content and media fields — its
publish path takes no token and verifies nothing, so any client-chosen
sender id is broadcast as-is; on the REST path, by contrast, any
message added by the guarded send-message endpoint carries the sender
id recovered from the verified token. -/
theorem relay_no_token_check (r : Relay) (sender receiver : Nat)
    (content media : Option String) (s : Store) (verify : String → TokenCheck)
    (t : String) (uid recv now : Nat) (c m : Option String)
    (hv : verify t = TokenCheck.valid uid) :
    (∀ l ∈ (relayPublish r { sender := sender, receiver := receiver,
                             content := content, media := media }).listeners,
        l.inbox.getLast? = some { sender := sender, receiver := receiver,
                                  content := content, media := media })
    ∧ (∀ msg ∈ (guarded s (some t) verify (sendMessageHandler recv c m now)).1.messages,
        msg ∈ s.messages ∨ msg.sender = uid) := by
  constructor
  · intro l hl
    rcases List.mem_map.mp hl with ⟨l0, _, rfl⟩
    simp
  · intro msg hmsg
    have e : guarded s (some t) verify (sendMessageHandler recv c m now)
        = sendMessageHandler recv c m now uid s := by
      have e1 : guarded s (some t) verify (sendMessageHandler recv c m now)
          = match verify t with
            | TokenCheck.invalid => (s, 403, "Invalid token")
            | TokenCheck.valid uid => sendMessageHandler recv c m now uid s := rfl
      rw [e1, hv]
    rw [e] at hmsg
    unfold sendMessageHandler sendMessage at hmsg
    by_cases hval : messageValid c m
    · simp [hval] at hmsg
      rcases hmsg with h | h
      · exact Or.inl h
      · exact Or.inr (by rw [h])
    · simp [hval] at hmsg
      exact Or.inl hmsg

/-- Witness for relay_no_token_check: publishing the sample event on
the sample relay leaves it as socket 7's latest received event. -/
theorem relay_no_token_check_witness :
    validAs 1 "tok" = TokenCheck.valid 1
    ∧ (Listener.mk 7 [sampleEvent]).inbox.getLast? = some sampleEvent :=
  ⟨rfl, (relay_no_token_check sampleRelay 1 2 (some "hi") none sampleStore
      (validAs 1) "tok" 1 2 9 (some "hi") none rfl).1 ⟨7, [sampleEvent]⟩ (by decide)⟩

end ChatApp
